import Mathlib

/-!
Verification development for the serial-sensors ingest-and-fan-out pipeline.

The definitions below are a shallow embedding of the Rust sources:
  * `src/data_buffer.rs` — `SensorDataBuffer` / `InnerSensorDataBuffer`,
  * `src/serial.rs`      — `decoder`, `handle_data_recv`,
  * `src/dumping.rs`     — `dump_data`, `create_data_row`, `decode_device_time`.
Machine integers are modelled as `Nat`/`Int` with explicit `% 2^32` where the
source performs wrapping 32-bit arithmetic; `f32` arithmetic is modelled over
`ℚ` (the claims under study only concern which terms/elements are produced,
never float rounding).  Types of the external `serial-sensors-proto` crate
(frames, sensor ids, the wire codec) are not part of `src/`; they are modelled
from the spec and marked as such in their doc comments.
-/

/-- Composite sensor identity (spec §3): `(sensor_tag, sensor_type_id,
value_type)`.  Mirrors `SensorId` of the proto crate. -/
structure SensorId where
  tag : Nat
  id : Nat
  value_type : Nat
deriving DecidableEq

/-- Three signed 16-bit components, modelled as `Int`. -/
structure Vector3Data where
  x : Int
  y : Int
  z : Int
deriving DecidableEq

/-- Four float components, modelled over `ℚ`. -/
structure Vector4Data where
  a : ℚ
  b : ℚ
  c : ℚ
  d : ℚ
deriving DecidableEq

/-- Three float components, modelled over `ℚ`. -/
structure Vector3DataQ where
  x : ℚ
  y : ℚ
  z : ℚ
deriving DecidableEq

/-- One signed 16-bit scalar, modelled as `Int`. -/
structure ScalarData where
  value : Int
deriving DecidableEq

/-- Identification code of an identification frame. -/
inductive IdentifierCode where
  | generic
  | maker
  | product
  | revision
deriving DecidableEq

/-- Identification payload.  Modelled from the spec: `target` (a SensorId),
`code`, and the value bytes; `value` models `as_str()`, i.e. the UTF-8
decoding of the payload bytes (`none` when the bytes are not valid UTF-8). -/
structure Identification where
  target : SensorId
  code : IdentifierCode
  value : Option String
deriving DecidableEq

/-- Calibration record (spec §3 *LinearRanges*).  Modelled from the spec; the
`target` field names the sensor the calibration applies to (the UI code in
`components/utils.rs` reads `ident.target` from this payload). -/
structure LinearRangeInfo where
  target : SensorId
  resolution_bits : Nat
  scale_op : Nat
  scale : Int
  scale_decimals : Nat
  offset : Int
  offset_decimals : Nat
deriving DecidableEq

/-- The calibration conversion function.  Modelled from the spec (§3):
`f(r) = (r + offset·10^(-offset_decimals)) · scale·10^(-scale_decimals)`,
over `ℚ` in place of `f32`. -/
def LinearRangeInfo.convert (info : LinearRangeInfo) (r : ℚ) : ℚ :=
  (r + (info.offset : ℚ) / (10 : ℚ) ^ info.offset_decimals) *
    ((info.scale : ℚ) / (10 : ℚ) ^ info.scale_decimals)

/-- Payload variants (spec §3), mirroring `SensorData` of the proto crate. -/
inductive SensorData where
  | systemClockFrequency (value : Nat)
  | accelerometerI16 (v : Vector3Data)
  | magnetometerI16 (v : Vector3Data)
  | temperatureI16 (v : ScalarData)
  | gyroscopeI16 (v : Vector3Data)
  | headingI16 (v : ScalarData)
  | eulerAnglesF32 (v : Vector3DataQ)
  | orientationQuaternionF32 (v : Vector4Data)
  | linearRanges (info : LinearRangeInfo)
  | identification (i : Identification)
deriving DecidableEq

/-- Per-variant sensor-type code of the proto crate, used as the `id`
component of a `SensorId`.  Modelled from the spec (only distinctness per
variant matters downstream). -/
def SensorData.sensorTypeId : SensorData → Nat
  | .systemClockFrequency _ => 1
  | .accelerometerI16 _ => 2
  | .magnetometerI16 _ => 3
  | .temperatureI16 _ => 4
  | .gyroscopeI16 _ => 5
  | .headingI16 _ => 6
  | .eulerAnglesF32 _ => 7
  | .orientationQuaternionF32 _ => 8
  | .linearRanges _ => 9
  | .identification _ => 10

/-- Per-variant value-type code (`ValueType` of the proto crate). -/
def SensorData.valueTypeCode : SensorData → Nat
  | .systemClockFrequency _ => 3
  | .accelerometerI16 _ => 4
  | .magnetometerI16 _ => 4
  | .temperatureI16 _ => 4
  | .gyroscopeI16 _ => 4
  | .headingI16 _ => 4
  | .eulerAnglesF32 _ => 11
  | .orientationQuaternionF32 _ => 11
  | .linearRanges _ => 16
  | .identification _ => 17

/-- The LinearRanges payload of a value, when it is one (a proof-side view
on the payload variant). -/
def SensorData.linearRangesInfo : SensorData → Option LinearRangeInfo
  | .linearRanges info => some info
  | _ => none

/-- The decoded telemetry unit (spec §3), mirroring `Version1DataFrame`. -/
structure Version1DataFrame where
  global_sequence : Nat
  sensor_tag : Nat
  sensor_sequence : Nat
  system_secs : Nat
  system_millis : Nat
  system_nanos : Nat
  value : SensorData
deriving DecidableEq

/-- `SensorId::from(&Version1DataFrame)`: the id built from the frame's own
`sensor_tag` and the payload variant.  Modelled from the spec (§3). -/
def SensorId.fromFrame (f : Version1DataFrame) : SensorId :=
  ⟨f.sensor_tag, f.value.sensorTypeId, f.value.valueTypeCode⟩

/-- `Version1DataFrame::is_meta`: Identification or LinearRanges (spec
glossary: "Meta frame — Identification or LinearRanges").  Modelled from the
spec. -/
def Version1DataFrame.is_meta (f : Version1DataFrame) : Bool :=
  match f.value with
  | .linearRanges _ => true
  | .identification _ => true
  | _ => false

/-- `Version1DataFrame::target`: meta frames are rewired to the SensorId
embedded in their payload ("Meta frames need to be rewired", data_buffer.rs);
all other frames map to `SensorId::from`.  Modelled from the spec (§4.6
"Identification/LinearRanges frame with matching target observed"). -/
def Version1DataFrame.target (f : Version1DataFrame) : SensorId :=
  match f.value with
  | .linearRanges info => info.target
  | .identification i => i.target
  | _ => SensorId.fromFrame f

/-- Rate estimator (src/fps_counter.rs).  Wall-clock instants and their u64
encoding are outside the model; the mark count is kept, the averaged duration
is abstracted (no claim inspects it — only its presence/absence). -/
structure FpsCounter where
  marks : Nat
deriving DecidableEq

/-- `FpsCounter::mark` (called from `InnerSensorDataBuffer::enqueue`). -/
def FpsCounter.mark (c : FpsCounter) : FpsCounter := ⟨c.marks + 1⟩

/-- `FpsCounter::average_duration` — the decoded averaged duration, abstracted
to `ℚ` seconds. -/
def FpsCounter.average_duration (_ : FpsCounter) : ℚ := 0

/-- Inner per-sensor (or global) buffer state, mirroring
`InnerSensorDataBuffer` in src/data_buffer.rs.  `data` is newest-first. -/
structure InnerSensorDataBuffer where
  sensor_specific : Bool
  capacity : Nat
  data : List Version1DataFrame
  len : Nat
  fps : FpsCounter
  sequence : Nat
  num_skipped : Nat
  calibration : Option LinearRangeInfo
  maker : String
  product : String
deriving DecidableEq

/-- `InnerSensorDataBuffer::default()` (src/data_buffer.rs:146-162):
sensor-specific, capacity 100, empty state. -/
def InnerSensorDataBuffer.default : InnerSensorDataBuffer :=
  { sensor_specific := true
    capacity := 100
    data := []
    len := 0
    fps := ⟨0⟩
    sequence := 0
    num_skipped := 0
    calibration := none
    maker := ""
    product := "" }

/-- `InnerSensorDataBuffer::new(sensor_specific)`. -/
def InnerSensorDataBuffer.new (sensor_specific : Bool) : InnerSensorDataBuffer :=
  { InnerSensorDataBuffer.default with sensor_specific }

/-- `InnerSensorDataBuffer::enqueue` (src/data_buffer.rs:175-209).  Meta
frames in sensor-specific buffers only update calibration / identification
strings; all other frames update the sequence tracker (with wrapping 32-bit
arithmetic), the ring buffer, its length, and the rate estimator. -/
def InnerSensorDataBuffer.enqueue (s : InnerSensorDataBuffer)
    (frame : Version1DataFrame) : InnerSensorDataBuffer :=
  if s.sensor_specific && frame.is_meta then
    match frame.value with
    | .linearRanges calibration => { s with calibration := some calibration }
    | .identification ident =>
      match ident.code with
      | .generic => s
      | .maker => { s with maker := (ident.value.getD "").trim }
      | .product => { s with product := (ident.value.getD "").trim }
      | .revision => s
    | _ => s
  else
    let previous := s.sequence
    let num_skipped :=
      if frame.sensor_sequence ≠ (previous + 1) % 2 ^ 32 ∧
          frame.sensor_sequence ≠ previous then
        (s.num_skipped + 1) % 2 ^ 32
      else s.num_skipped
    let data := (frame :: s.data).take s.capacity
    { s with
      sequence := frame.sensor_sequence
      num_skipped
      data
      len := data.length
      fps := s.fps.mark }

/-- `InnerSensorDataBuffer::skipped`. -/
def InnerSensorDataBuffer.skipped (s : InnerSensorDataBuffer) : Nat :=
  s.num_skipped

/-- `InnerSensorDataBuffer::get_latest`: the front (newest) element. -/
def InnerSensorDataBuffer.get_latest (s : InnerSensorDataBuffer) :
    Option Version1DataFrame :=
  s.data.head?

/-- Association-list lookup, modelling `HashMap::get`. -/
def assocLookup {κ α : Type} [DecidableEq κ] (k : κ) :
    List (κ × α) → Option α
  | [] => none
  | (k', v) :: rest => if k' = k then some v else assocLookup k rest

/-- Association-list update, modelling
`HashMap::entry(k).and_modify(f).or_insert_with(init)`. -/
def assocUpsert {κ α : Type} [DecidableEq κ] (k : κ) (f : α → α) (init : α) :
    List (κ × α) → List (κ × α)
  | [] => [(k, init)]
  | (k', v) :: rest =>
    if k' = k then (k', f v) :: rest else (k', v) :: assocUpsert k f init rest

/-- The two-layer buffer, mirroring `SensorDataBuffer` in src/data_buffer.rs
(the `RwLock`s collapse to plain fields; the per-sensor `HashMap` is an
association list without duplicate keys). -/
structure SensorDataBuffer where
  inner : InnerSensorDataBuffer
  by_sensor : List (SensorId × InnerSensorDataBuffer)
deriving DecidableEq

/-- `SensorDataBuffer::default()`: a global (non sensor-specific) inner buffer
and an empty per-sensor map. -/
def SensorDataBuffer.default : SensorDataBuffer :=
  { inner := InnerSensorDataBuffer.new false
    by_sensor := [] }

/-- `SensorDataBuffer::enqueue` (src/data_buffer.rs:73-92): always update the
global layer; skip the per-sensor layer when the frame's target id has tag 0;
otherwise modify the existing entry or insert a fresh
`InnerSensorDataBuffer::default()` fed with the frame. -/
def SensorDataBuffer.enqueue (buf : SensorDataBuffer)
    (frame : Version1DataFrame) : SensorDataBuffer :=
  let inner := buf.inner.enqueue frame
  let sensor_id := frame.target
  if sensor_id.tag = 0 then
    { buf with inner }
  else
    { inner
      by_sensor :=
        assocUpsert sensor_id (fun entry => entry.enqueue frame)
          (InnerSensorDataBuffer.default.enqueue frame) buf.by_sensor }

/-- `SensorDataBuffer::num_sensors`. -/
def SensorDataBuffer.num_sensors (buf : SensorDataBuffer) : Nat :=
  buf.by_sensor.length

/-- `SensorDataBuffer::get_sensors`. -/
def SensorDataBuffer.get_sensors (buf : SensorDataBuffer) : List SensorId :=
  buf.by_sensor.map Prod.fst

/-- `SensorDataBuffer::get_latest_by_sensor`. -/
def SensorDataBuffer.get_latest_by_sensor (buf : SensorDataBuffer)
    (id : SensorId) : Option Version1DataFrame :=
  (assocLookup id buf.by_sensor).bind fun entry => entry.get_latest

/-- `SensorDataBuffer::get_average_duration_by_sensor`. -/
def SensorDataBuffer.get_average_duration_by_sensor (buf : SensorDataBuffer)
    (id : SensorId) : Option ℚ :=
  (assocLookup id buf.by_sensor).map fun entry => entry.fps.average_duration

/-- `SensorDataBuffer::get_skipped_by_sensor`. -/
def SensorDataBuffer.get_skipped_by_sensor (buf : SensorDataBuffer)
    (id : SensorId) : Nat :=
  ((assocLookup id buf.by_sensor).map fun entry => entry.skipped).getD 0

/-- `SensorDataBuffer::get_sensor_name`. -/
def SensorDataBuffer.get_sensor_name (buf : SensorDataBuffer)
    (id : SensorId) : String :=
  ((assocLookup id buf.by_sensor).map fun entry => entry.product).getD ""

/-- `SensorDataBuffer::convert_values` (src/data_buffer.rs:132-143): the
in-place mutation of the `f32` slice is modelled by returning the flag
together with the resulting list. -/
def SensorDataBuffer.convert_values (buf : SensorDataBuffer) (id : SensorId)
    (values : List ℚ) : Bool × List ℚ :=
  match ((assocLookup id buf.by_sensor).bind fun entry => entry.calibration) with
  | some info => (true, values.map fun value => info.convert value)
  | none => (false, values)

/-- Enqueue a whole list of frames in order, from the fresh buffer. -/
def SensorDataBuffer.enqueueAll (frames : List Version1DataFrame) :
    SensorDataBuffer :=
  frames.foldl (fun buf frame => buf.enqueue frame) SensorDataBuffer.default

/-- Sample Gyroscope data frame (tag 1) with the given sensor sequence. -/
def sampleGyro (seq : Nat) : Version1DataFrame :=
  { global_sequence := seq
    sensor_tag := 1
    sensor_sequence := seq
    system_secs := 0
    system_millis := 0
    system_nanos := 0
    value := .gyroscopeI16 ⟨100, 200, -300⟩ }

/-- The SensorId of the sample gyroscope channel. -/
def sampleGyroId : SensorId := SensorId.fromFrame (sampleGyro 5)

/-- Sample calibration record targeting the sample gyroscope channel:
`f(r) = (r + 1) * 3`. -/
def sampleCalib : LinearRangeInfo :=
  { target := sampleGyroId
    resolution_bits := 16
    scale_op := 0
    scale := 3
    scale_decimals := 0
    offset := 1
    offset_decimals := 0 }

/-- A board-originated (sensor_tag 0) LinearRanges meta frame carrying the
sample calibration for the tag-1 gyroscope channel. -/
def sampleCalibFrame : Version1DataFrame :=
  { global_sequence := 10
    sensor_tag := 0
    sensor_sequence := 10
    system_secs := 0
    system_millis := 0
    system_nanos := 0
    value := .linearRanges sampleCalib }

/-- A second calibration record for the same channel (for last-write-wins). -/
def sampleCalib2 : LinearRangeInfo :=
  { sampleCalib with scale := 7, offset := 2 }

/-- A frame carrying the second calibration record. -/
def sampleCalibFrame2 : Version1DataFrame :=
  { sampleCalibFrame with global_sequence := 11, value := .linearRanges sampleCalib2 }

/-- Sample product-identification meta frame for a tag-3 sensor. -/
def sampleIdentFrame : Version1DataFrame :=
  { global_sequence := 20
    sensor_tag := 0
    sensor_sequence := 20
    system_secs := 0
    system_millis := 0
    system_nanos := 0
    value := .identification
      { target := ⟨3, 2, 4⟩, code := .product, value := some "LSM303DLHC  " } }

/-! ## Deframer/decoder (src/serial.rs) and the wire codec -/

/-- `DeserializationError` of the proto crate (spec §4.2 outcomes). -/
inductive DeserializationError where
  | truncated
  | corrupt
  | bincodeError
deriving DecidableEq

/-- The body of one iteration of `decoder` (src/serial.rs:38-72), for one
inbound slice: append the slice to the accumulator, then attempt to
deserialize ONE frame.  On success drain the consumed bytes plus any run of
leading zero delimiter bytes and emit the frame; on `Truncated` / `Corrupt`
leave the accumulator untouched; on an encoding (bincode) error clear it.
Parametric in the external `deserialize` function. -/
def decoderStep
    (deser : List Nat → Except DeserializationError (Nat × Version1DataFrame))
    (buffer data : List Nat) : List Nat × List Version1DataFrame :=
  let buffer := buffer ++ data
  match deser buffer with
  | .ok (read, frame) =>
    let buffer := buffer.drop read
    let buffer := buffer.dropWhile fun x => x == 0
    (buffer, [frame])
  | .error .truncated => (buffer, [])
  | .error .corrupt => (buffer, [])
  | .error .bincodeError => ([], [])

/-- The decoder task over a list of inbound slices: fold `decoderStep`,
collecting the emitted frames in order. -/
def decoderRun
    (deser : List Nat → Except DeserializationError (Nat × Version1DataFrame))
    (buffer : List Nat) :
    List (List Nat) → List Nat × List Version1DataFrame
  | [] => (buffer, [])
  | s :: rest =>
    let out := decoderStep deser buffer s
    let out2 := decoderRun deser out.1 rest
    (out2.1, out.2 ++ out2.2)

/-- Raw symbol serialization of an `Int` (sign, magnitude).  Part of the wire
codec, which is modelled from the spec (§6): the payload wire schema itself is
explicitly out of the spec's scope, so any injective symbol encoding serves. -/
def intSer (i : Int) : List Nat := [if i < 0 then 1 else 0, i.natAbs]

/-- Raw symbol serialization of a `ℚ` (sign, numerator, denominator). -/
def ratSer (q : ℚ) : List Nat := [if q.num < 0 then 1 else 0, q.num.natAbs, q.den]

/-- Raw symbol serialization of a `SensorId`. -/
def sensorIdSer (s : SensorId) : List Nat := [s.tag, s.id, s.value_type]

/-- Raw symbol serialization of an identifier code. -/
def identCodeSer : IdentifierCode → Nat
  | .generic => 0
  | .maker => 1
  | .product => 2
  | .revision => 3

/-- Raw symbol serialization of an optional string (length-prefixed chars). -/
def optStringSer : Option String → List Nat
  | none => [0]
  | some s => [1, s.data.length] ++ s.data.map Char.toNat

/-- Raw symbol serialization of a payload (variant tag, then fields). -/
def sensorDataSer : SensorData → List Nat
  | .systemClockFrequency v => [0, v]
  | .accelerometerI16 v => 1 :: (intSer v.x ++ intSer v.y ++ intSer v.z)
  | .magnetometerI16 v => 2 :: (intSer v.x ++ intSer v.y ++ intSer v.z)
  | .temperatureI16 v => 3 :: intSer v.value
  | .gyroscopeI16 v => 4 :: (intSer v.x ++ intSer v.y ++ intSer v.z)
  | .headingI16 v => 5 :: intSer v.value
  | .eulerAnglesF32 v => 6 :: (ratSer v.x ++ ratSer v.y ++ ratSer v.z)
  | .orientationQuaternionF32 v =>
    7 :: (ratSer v.a ++ ratSer v.b ++ ratSer v.c ++ ratSer v.d)
  | .linearRanges info =>
    8 :: (sensorIdSer info.target ++ [info.resolution_bits, info.scale_op] ++
      intSer info.scale ++ [info.scale_decimals] ++ intSer info.offset ++
      [info.offset_decimals])
  | .identification i =>
    9 :: (sensorIdSer i.target ++ [identCodeSer i.code] ++ optStringSer i.value)

/-- Raw symbol serialization of a whole frame. -/
def frameSer (f : Version1DataFrame) : List Nat :=
  [f.global_sequence, f.sensor_tag, f.sensor_sequence, f.system_secs,
    f.system_millis, f.system_nanos] ++ sensorDataSer f.value

/-- The zero-free envelope body: every raw symbol shifted by one (the
COBS-style zero-elimination of spec §6, abstracted). -/
def frameBody (f : Version1DataFrame) : List Nat := (frameSer f).map (· + 1)

/-- `encode(F)`: the envelope body followed by the zero frame delimiter. -/
def encode (f : Version1DataFrame) : List Nat := frameBody f ++ [0]

/-- Parse one leading symbol. -/
def pNat : List Nat → Option (Nat × List Nat)
  | [] => none
  | n :: rest => some (n, rest)

/-- Parse a sign/magnitude `Int`. -/
def pInt : List Nat → Option (Int × List Nat)
  | 0 :: m :: rest => some ((m : Int), rest)
  | 1 :: m :: rest => some (-(m : Int), rest)
  | _ => none

/-- Parse a sign/numerator/denominator `ℚ`. -/
def pRat : List Nat → Option (ℚ × List Nat)
  | 0 :: n :: d :: rest => some ((n : ℚ) / (d : ℚ), rest)
  | 1 :: n :: d :: rest => some (-((n : ℚ) / (d : ℚ)), rest)
  | _ => none

/-- Parse a `SensorId`. -/
def pSensorId : List Nat → Option (SensorId × List Nat)
  | t :: i :: v :: rest => some (⟨t, i, v⟩, rest)
  | _ => none

/-- Parse an identifier code. -/
def pIdentCode : Nat → Option IdentifierCode
  | 0 => some .generic
  | 1 => some .maker
  | 2 => some .product
  | 3 => some .revision
  | _ => none

/-- Parse an optional length-prefixed string. -/
def pOptString : List Nat → Option (Option String × List Nat)
  | 0 :: rest => some (none, rest)
  | 1 :: len :: rest =>
    if len ≤ rest.length then
      some (some ⟨(rest.take len).map Char.ofNat⟩, rest.drop len)
    else none
  | _ => none

/-- Parse three `Int` components. -/
def pVec3 (l : List Nat) : Option (Vector3Data × List Nat) := do
  let (x, l) ← pInt l
  let (y, l) ← pInt l
  let (z, l) ← pInt l
  some (⟨x, y, z⟩, l)

/-- Parse three `ℚ` components. -/
def pVec3Q (l : List Nat) : Option (Vector3DataQ × List Nat) := do
  let (x, l) ← pRat l
  let (y, l) ← pRat l
  let (z, l) ← pRat l
  some (⟨x, y, z⟩, l)

/-- Parse four `ℚ` components. -/
def pVec4Q (l : List Nat) : Option (Vector4Data × List Nat) := do
  let (a, l) ← pRat l
  let (b, l) ← pRat l
  let (c, l) ← pRat l
  let (d, l) ← pRat l
  some (⟨a, b, c, d⟩, l)

/-- Parse a payload. -/
def pSensorData : List Nat → Option (SensorData × List Nat)
  | 0 :: v :: rest => some (.systemClockFrequency v, rest)
  | 1 :: rest => do
    let (v, l) ← pVec3 rest
    some (.accelerometerI16 v, l)
  | 2 :: rest => do
    let (v, l) ← pVec3 rest
    some (.magnetometerI16 v, l)
  | 3 :: rest => do
    let (i, l) ← pInt rest
    some (.temperatureI16 ⟨i⟩, l)
  | 4 :: rest => do
    let (v, l) ← pVec3 rest
    some (.gyroscopeI16 v, l)
  | 5 :: rest => do
    let (i, l) ← pInt rest
    some (.headingI16 ⟨i⟩, l)
  | 6 :: rest => do
    let (v, l) ← pVec3Q rest
    some (.eulerAnglesF32 v, l)
  | 7 :: rest => do
    let (v, l) ← pVec4Q rest
    some (.orientationQuaternionF32 v, l)
  | 8 :: rest => do
    let (t, l) ← pSensorId rest
    let (rb, l) ← pNat l
    let (so, l) ← pNat l
    let (sc, l) ← pInt l
    let (sd, l) ← pNat l
    let (off, l) ← pInt l
    let (od, l) ← pNat l
    some (.linearRanges ⟨t, rb, so, sc, sd, off, od⟩, l)
  | 9 :: rest => do
    let (t, l) ← pSensorId rest
    let (c, l) ← pNat l
    let code ← pIdentCode c
    let (v, l) ← pOptString l
    some (.identification ⟨t, code, v⟩, l)
  | _ => none

/-- Parse a whole frame. -/
def pFrame (l : List Nat) : Option (Version1DataFrame × List Nat) := do
  let (gs, l) ← pNat l
  let (tag, l) ← pNat l
  let (ss, l) ← pNat l
  let (secs, l) ← pNat l
  let (ms, l) ← pNat l
  let (ns, l) ← pNat l
  let (v, l) ← pSensorData l
  some ({ global_sequence := gs, sensor_tag := tag, sensor_sequence := ss,
          system_secs := secs, system_millis := ms, system_nanos := ns,
          value := v }, l)

/-- Undo the zero-elimination shift; fails if the body holds a zero. -/
def unescape (body : List Nat) : Option (List Nat) :=
  if body.all (· != 0) then some (body.map (· - 1)) else none

/-- Decode one complete envelope body into a frame (must consume it all). -/
def parseBody (body : List Nat) : Option Version1DataFrame := do
  let raw ← unescape body
  match pFrame raw with
  | some (f, []) => some f
  | _ => none

/-- Modelled from the spec (§6, §4.2): deserialize one zero-delimited
COBS-style envelope from the front of the accumulator — the real function
lives in the external `serial-sensors-proto` crate.  No delimiter yet ⇒
`Truncated`; an undecodable body ⇒ `Corrupt` (the spec's bincode-error case,
a well-formed envelope with an unreadable body, is not distinguished by this
codec; the claims under study exercise only the arms of the decoder's match,
which is `decoderStep`'s concern and parametric in `deser`). -/
def deserialize (buf : List Nat) :
    Except DeserializationError (Nat × Version1DataFrame) :=
  let body := buf.takeWhile (· != 0)
  if body.length = buf.length then .error .truncated
  else
    match parseBody body with
    | some f => .ok (body.length + 1, f)
    | none => .error .corrupt

/-- A frame is well-formed on the wire when its envelope body decodes back to
it (the claim's "well-formed frames"). -/
def WellFormedWire (f : Version1DataFrame) : Prop :=
  parseBody (frameBody f) = some f

instance (f : Version1DataFrame) : Decidable (WellFormedWire f) := by
  unfold WellFormedWire
  infer_instance

/-! ## CSV dumper (src/dumping.rs) -/

/-- `decode_device_time` (src/dumping.rs:220-236), over `ℚ` in place of
`f32`: 0 whenever `system_secs` holds its u32 sentinel; otherwise the
seconds plus the millis and nanos terms, each elided when its own u16 field
holds its sentinel. -/
def decode_device_time (data : Version1DataFrame) : ℚ :=
  if data.system_secs ≠ 2 ^ 32 - 1 then
    (data.system_secs : ℚ) +
      (if data.system_millis ≠ 2 ^ 16 - 1 then
        (data.system_millis : ℚ) / 1000 else 0) +
      (if data.system_nanos ≠ 2 ^ 16 - 1 then
        (data.system_nanos : ℚ) / 1000000 else 0)
  else 0

/-- The device-time column as the claim states it: the sum of the three
terms, EACH independently elided exactly when its own field holds its
sentinel.  This definition follows the claim's words, to be compared with
`decode_device_time` from the source. -/
def claimedDeviceTime (data : Version1DataFrame) : ℚ :=
  (if data.system_secs ≠ 2 ^ 32 - 1 then (data.system_secs : ℚ) else 0) +
    (if data.system_millis ≠ 2 ^ 16 - 1 then
      (data.system_millis : ℚ) / 1000 else 0) +
    (if data.system_nanos ≠ 2 ^ 16 - 1 then
      (data.system_nanos : ℚ) / 1000000 else 0)

/-- `SensorId::num_components` of the proto crate, derived from the
sensor-type code.  Modelled from the spec (§5's file-name pattern
`x<components>`). -/
def SensorId.num_components (s : SensorId) : Option Nat :=
  if s.id = 1 then some 1
  else if s.id = 2 then some 3
  else if s.id = 3 then some 3
  else if s.id = 4 then some 1
  else if s.id = 5 then some 3
  else if s.id = 6 then some 1
  else if s.id = 7 then some 3
  else if s.id = 8 then some 4
  else if s.id = 9 then some 0
  else if s.id = 10 then some 0
  else none

/-- One CSV data row, abstracted to its structured fields: the common prefix
columns of `create_data_row` (src/dumping.rs:154-218) and the calibration
record used for the converted columns (`none` ⇒ the converted columns are
left empty).  The textual rendering of the row is not modelled. -/
structure CsvRow where
  host_time : ℚ
  device_time : ℚ
  tag : Nat
  num_components : Nat
  value_type : Nat
  calibration : Option LinearRangeInfo
deriving DecidableEq

/-- `create_data_row` (src/dumping.rs:154-218): build the row for a frame
from the timestamp, the target id, the frame fields and the calibration
looked up for the converted columns. -/
def create_data_row (since_the_epoch : ℚ) (target : SensorId)
    (data : Version1DataFrame) (ranges : Option LinearRangeInfo) :
    Option CsvRow :=
  some { host_time := since_the_epoch
         device_time := decode_device_time data
         tag := target.tag
         num_components := target.num_components.getD 0
         value_type := target.value_type
         calibration := ranges }

/-- `create_header_row` (src/dumping.rs:136-152): the header line for the
frame's payload variant. -/
def create_header_row (data : Version1DataFrame) : Option String :=
  some ("host_time,device_time,sensor_tag,num_components,value_type" ++
    (match data.value with
     | .systemClockFrequency _ => ",freq"
     | .accelerometerI16 _ => ",x,y,z,converted_x,converted_y,converted_z"
     | .magnetometerI16 _ => ",x,y,z,converted_x,converted_y,converted_z"
     | .temperatureI16 _ => ",temp,converted_temp"
     | .gyroscopeI16 _ => ",x,y,z,converted_x,converted_y,converted_z"
     | .headingI16 _ => ",heading,converted_heading"
     | .eulerAnglesF32 _ => ",x,y,z,converted_x,converted_y,converted_z"
     | .orientationQuaternionF32 _ =>
       ",a,b,c,d,converted_a,converted_b,converted_c,converted_d"
     | .linearRanges _ =>
       ",resolution_bits,scale_op,scale,scale_raw,scale_decimals,offset,offset_raw,offset_decimals"
     | .identification _ => ",code,value"))

/-- Association-list insert-or-overwrite, modelling `HashMap::insert`. -/
def assocInsert {κ α : Type} [DecidableEq κ] (k : κ) (v : α) :
    List (κ × α) → List (κ × α)
  | [] => [(k, v)]
  | (k', v') :: rest =>
    if k' = k then (k', v) :: rest else (k', v') :: assocInsert k v rest

/-- The dumper task state (src/dumping.rs:59-60): the per-sensor writers
(file contents abstracted to the list of data rows written) and the
per-sensor calibration map. -/
structure DumpState where
  files : List (SensorId × List CsvRow)
  ranges : List (SensorId × LinearRangeInfo)
deriving DecidableEq

/-- The dumper's initial state: two empty maps. -/
def DumpState.init : DumpState := ⟨[], []⟩

/-- One iteration of `dump_data` (src/dumping.rs:62-115) for one received
frame: on a LinearRanges payload first store it in `ranges` under the
payload's target id; look up the calibration for the row (under the frame's
own `SensorId::from` key for data frames); build the data row; append it to
the file keyed by `SensorId::from(frame)`, creating the file (after a
successful header build) on first contact. -/
def dump_step (st : DumpState) (since_the_epoch : ℚ)
    (data : Version1DataFrame) : DumpState :=
  let target := SensorId.fromFrame data
  let ranges :=
    match data.value with
    | .linearRanges info => assocInsert data.target info st.ranges
    | _ => st.ranges
  let ri :=
    match data.value with
    | .linearRanges _ => assocLookup data.target ranges
    | _ => assocLookup target ranges
  match create_data_row since_the_epoch target data ri with
  | none => { st with ranges }
  | some row =>
    match assocLookup target st.files with
    | some rows => { files := assocInsert target (rows ++ [row]) st.files
                     ranges }
    | none =>
      match create_header_row data with
      | some _ => { files := assocInsert target [row] st.files, ranges }
      | none => { st with ranges }

/-- Run the dumper over a list of frames (the host timestamp, irrelevant to
the claims under study, is fixed at 0). -/
def dumpAll (frames : List Version1DataFrame) : DumpState :=
  frames.foldl (fun st f => dump_step st 0 f) DumpState.init

/-- Number of data rows written so far to the file keyed by `k`. -/
def dumpRowCount (st : DumpState) (k : SensorId) : Nat :=
  ((assocLookup k st.files).getD []).length

/-- The most recently observed LinearRanges record for `S`, folded from an
initial accumulator. -/
def lastCalibFrom (acc : Option LinearRangeInfo)
    (frames : List Version1DataFrame) (S : SensorId) : Option LinearRangeInfo :=
  frames.foldl
    (fun a f =>
      match f.value with
      | .linearRanges info => if info.target = S then some info else a
      | _ => a) acc

/-- The most recently observed LinearRanges record for `S` in `frames`. -/
def lastCalib (frames : List Version1DataFrame) (S : SensorId) :
    Option LinearRangeInfo :=
  lastCalibFrom none frames S

/-- The calibration C4 holds for `S` after processing `frames` (the one
`convert_values` uses). -/
def activeCalibC4 (frames : List Version1DataFrame) (S : SensorId) :
    Option LinearRangeInfo :=
  (assocLookup S (SensorDataBuffer.enqueueAll frames).by_sensor).bind
    fun e => e.calibration

/-- The calibration C5 holds for `S` after processing `frames` (the one used
for the converted columns of subsequent rows). -/
def activeCalibC5 (frames : List Version1DataFrame) (S : SensorId) :
    Option LinearRangeInfo :=
  assocLookup S (dumpAll frames).ranges

/-- A frame whose device timestamp has `system_secs` at its sentinel but
valid `system_millis` (500) and sentinel `system_nanos`. -/
def sentinelSecsFrame : Version1DataFrame :=
  { global_sequence := 1
    sensor_tag := 2
    sensor_sequence := 1
    system_secs := 2 ^ 32 - 1
    system_millis := 500
    system_nanos := 2 ^ 16 - 1
    value := .headingI16 ⟨42⟩ }

/-- A calibration record targeting the board id (tag 0). -/
def boardCalib1 : LinearRangeInfo :=
  { target := ⟨0, 1, 1⟩
    resolution_bits := 16
    scale_op := 0
    scale := 2
    scale_decimals := 0
    offset := 0
    offset_decimals := 0 }

/-- A second, different calibration record targeting the board id. -/
def boardCalib2 : LinearRangeInfo := { boardCalib1 with scale := 5 }

/-- The frame carrying `boardCalib1`. -/
def boardCalibFrame1 : Version1DataFrame :=
  { global_sequence := 1
    sensor_tag := 0
    sensor_sequence := 1
    system_secs := 0
    system_millis := 0
    system_nanos := 0
    value := .linearRanges boardCalib1 }

/-- The frame carrying `boardCalib2`. -/
def boardCalibFrame2 : Version1DataFrame :=
  { boardCalibFrame1 with global_sequence := 2, value := .linearRanges boardCalib2 }

/-! ## Serial source task (src/serial.rs `handle_data_recv`) -/

/-- I/O error kind of a failed port read: the timeout kind versus any other
kind (represented by an opaque code). -/
inductive IOErrorKind where
  | timedOut
  | other (code : Nat)
deriving DecidableEq

/-- One fired arm of the `select!` in `handle_data_recv`
(src/serial.rs:94-112): an outbound command became available (with the result
of `port.write_all`), or a port read completed (with the result of
`from_device.send` for the non-empty case), or a port read failed. -/
inductive SerialEvent where
  | commandRecv (writeOk : Bool)
  | readOk (bytes : List Nat) (sendOk : Bool)
  | readErr (kind : IOErrorKind)
deriving DecidableEq

/-- Observable outcome of one `handle_data_recv` loop iteration: whether the
task returns with a fatal (non-Ok) status (a `?` propagation), which byte
slices were forwarded downstream, and whether the error branch printed to
stderr (`eprintln!`). -/
structure RecvStepResult where
  fatal : Bool
  sent : List (List Nat)
  stderrLogged : Bool
deriving DecidableEq

/-- One iteration of `handle_data_recv` (src/serial.rs:87-114): a failed
write or a failed downstream send propagates via `?` (fatal); a read of `n >
0` bytes forwards them; a read timeout is silently ignored; every other read
error is printed to stderr and the loop continues. -/
def handle_data_recv_step : SerialEvent → RecvStepResult
  | .commandRecv writeOk =>
    if writeOk then ⟨false, [], false⟩ else ⟨true, [], false⟩
  | .readOk bytes sendOk =>
    if bytes.length > 0 then
      if sendOk then ⟨false, [bytes], false⟩ else ⟨true, [], false⟩
    else ⟨false, [], false⟩
  | .readErr .timedOut => ⟨false, [], false⟩
  | .readErr (.other _) => ⟨false, [], true⟩

/-! ## Helper lemmas -/

theorem assocLookup_upsert_ne {κ α : Type} [DecidableEq κ] (k S : κ)
    (h : k ≠ S) (f : α → α) (init : α) (l : List (κ × α)) :
    assocLookup S (assocUpsert k f init l) = assocLookup S l := by
  induction l with
  | nil => simp [assocUpsert, assocLookup, h]
  | cons hd tl ih =>
    obtain ⟨k', v⟩ := hd
    by_cases hk : k' = k
    · subst hk
      simp [assocUpsert, assocLookup, h]
    · simp [assocUpsert, assocLookup, hk, ih]

theorem lookup_enqueue_ne (buf : SensorDataBuffer) (f : Version1DataFrame)
    (S : SensorId) (h : f.target ≠ S) :
    assocLookup S (buf.enqueue f).by_sensor = assocLookup S buf.by_sensor := by
  unfold SensorDataBuffer.enqueue
  by_cases h0 : f.target.tag = 0
  · simp [h0]
  · simp [h0, assocLookup_upsert_ne _ _ h]

theorem lookup_foldl_enqueue_none (frames : List Version1DataFrame)
    (S : SensorId) :
    ∀ buf : SensorDataBuffer, assocLookup S buf.by_sensor = none →
      (∀ f ∈ frames, f.target ≠ S) →
      assocLookup S
        (frames.foldl (fun b fr => b.enqueue fr) buf).by_sensor = none := by
  induction frames with
  | nil => intro buf hb _; simpa using hb
  | cons hd tl ih =>
    intro buf hb hall
    simp only [List.foldl_cons]
    exact ih _ (by rw [lookup_enqueue_ne _ _ _ (hall hd (by simp))]; exact hb)
      (fun f hf => hall f (by simp [hf]))

/-! ## C1: skip counter after Gyroscope sequences 5, 6, 8 -/

/-- C1 (counterexample): after enqueueing three Gyroscope frames with
sensor_sequence 5, 6, 8 into a fresh buffer, the skip counter is not 1 as the
claim states: the very first frame (sequence 5 against the initial tracker
value 0) already counts as a skip, the 6→8 gap counts a second one. -/
theorem C1_claim_counterexample :
    (SensorDataBuffer.enqueueAll
        [sampleGyro 5, sampleGyro 6, sampleGyro 8]).get_skipped_by_sensor
      sampleGyroId ≠ 1 := by decide

/-- C1 (amended): after enqueueing three Gyroscope frames with
sensor_sequence 5, 6, 8 into a fresh buffer, the skip counter for that
SensorId equals 2 — one skip for the initial 0→5 jump (the tracker starts at
0 and 5 ∉ {0, 1}) and one for the 6→8 gap. -/
theorem C1_skip_count :
    (SensorDataBuffer.enqueueAll
        [sampleGyro 5, sampleGyro 6, sampleGyro 8]).get_skipped_by_sensor
      sampleGyroId = 2 := by decide

/-! ## C6: convert_values applies the calibration exactly when present -/

/-- C6: for every buffer state, SensorId and value list, `convert_values`
returns `true` and maps every element through the calibration conversion when
a calibration record is present for that SensorId, and returns `false`
leaving the list unchanged when none is present (including when the SensorId
has no entry at all). -/
theorem C6_convert_values (buf : SensorDataBuffer) (id : SensorId)
    (values : List ℚ) :
    (∀ info : LinearRangeInfo,
        ((assocLookup id buf.by_sensor).bind fun e => e.calibration) =
            some info →
          buf.convert_values id values = (true, values.map info.convert)) ∧
      (((assocLookup id buf.by_sensor).bind fun e => e.calibration) = none →
        buf.convert_values id values = (false, values)) := by
  constructor
  · intro info h
    simp [SensorDataBuffer.convert_values, h]
  · intro h
    simp [SensorDataBuffer.convert_values, h]

/-- C6 (witness): with the sample calibration `f(r) = (r + 1) * 3` installed
for the gyroscope channel, conversion succeeds and maps `[2]` to `[9]`; on
the fresh buffer the same query fails and leaves `[2]` unchanged. -/
theorem C6_convert_values_witness :
    (SensorDataBuffer.enqueueAll [sampleCalibFrame]).convert_values
        sampleGyroId [2] = (true, [9]) ∧
      SensorDataBuffer.default.convert_values sampleGyroId [2] = (false, [2]) := by
  constructor
  · have h := (C6_convert_values
      (SensorDataBuffer.enqueueAll [sampleCalibFrame]) sampleGyroId [2]).1
      sampleCalib (by decide)
    rw [h]
    norm_num [sampleCalib, LinearRangeInfo.convert]
  · exact (C6_convert_values SensorDataBuffer.default sampleGyroId [2]).2 rfl

/-! ## C9: a meta frame alone creates the per-sensor entry -/

/-- C9: the first frame with a non-zero target SensorId creates the
per-sensor entry even when it is a meta frame: `num_sensors` counts the
sensor while its ring buffer is still empty (`get_latest_by_sensor` is
`none`), and the queries already succeed — `convert_values` converts after a
lone LinearRanges frame, `get_sensor_name` returns the trimmed product string
after a lone product Identification frame. -/
theorem C9_meta_frame_creates_entry (f : Version1DataFrame)
    (hm : f.is_meta = true) (ht : f.target.tag ≠ 0) :
    (SensorDataBuffer.default.enqueue f).num_sensors = 1 ∧
      (SensorDataBuffer.default.enqueue f).get_latest_by_sensor f.target =
        none ∧
      (∀ i : LinearRangeInfo, f.value = .linearRanges i →
        ∀ vals : List ℚ,
          (SensorDataBuffer.default.enqueue f).convert_values f.target vals =
            (true, vals.map i.convert)) ∧
      (∀ i : Identification, f.value = .identification i → i.code = .product →
        (SensorDataBuffer.default.enqueue f).get_sensor_name f.target =
          (i.value.getD "").trim) := by
  have hshape : (SensorDataBuffer.default.enqueue f).by_sensor =
      [(f.target, InnerSensorDataBuffer.default.enqueue f)] := by
    simp [SensorDataBuffer.enqueue, SensorDataBuffer.default, ht, assocUpsert]
  have hnum : (SensorDataBuffer.default.enqueue f).num_sensors = 1 := by
    simp [SensorDataBuffer.num_sensors, hshape]
  cases hv : f.value with
  | systemClockFrequency v => simp [Version1DataFrame.is_meta, hv] at hm
  | accelerometerI16 v => simp [Version1DataFrame.is_meta, hv] at hm
  | magnetometerI16 v => simp [Version1DataFrame.is_meta, hv] at hm
  | temperatureI16 v => simp [Version1DataFrame.is_meta, hv] at hm
  | gyroscopeI16 v => simp [Version1DataFrame.is_meta, hv] at hm
  | headingI16 v => simp [Version1DataFrame.is_meta, hv] at hm
  | eulerAnglesF32 v => simp [Version1DataFrame.is_meta, hv] at hm
  | orientationQuaternionF32 v => simp [Version1DataFrame.is_meta, hv] at hm
  | linearRanges info =>
    refine ⟨hnum, ?_, ?_, ?_⟩
    · simp [SensorDataBuffer.get_latest_by_sensor, hshape, assocLookup,
        InnerSensorDataBuffer.enqueue, InnerSensorDataBuffer.default,
        Version1DataFrame.is_meta, hv, InnerSensorDataBuffer.get_latest]
    · intro i hi vals
      injection hi with h
      subst h
      simp [SensorDataBuffer.convert_values, hshape, assocLookup,
        InnerSensorDataBuffer.enqueue, InnerSensorDataBuffer.default,
        Version1DataFrame.is_meta, hv]
    · intro i hi _
      simp at hi
  | identification i =>
    refine ⟨hnum, ?_, ?_, ?_⟩
    · cases hc : i.code <;>
        simp [SensorDataBuffer.get_latest_by_sensor, hshape, assocLookup,
          InnerSensorDataBuffer.enqueue, InnerSensorDataBuffer.default,
          Version1DataFrame.is_meta, hv, hc, InnerSensorDataBuffer.get_latest]
    · intro j hj _
      simp at hj
    · intro j hj hc
      injection hj with h
      subst h
      simp [SensorDataBuffer.get_sensor_name, hshape, assocLookup,
        InnerSensorDataBuffer.enqueue, InnerSensorDataBuffer.default,
        Version1DataFrame.is_meta, hv, hc]

/-- C9 (witness): the sample board-originated LinearRanges frame (target tag
1) and the sample product-identification frame (target tag 3) each create a
live entry from the fresh buffer. -/
theorem C9_meta_frame_creates_entry_witness :
    ((SensorDataBuffer.default.enqueue sampleCalibFrame).num_sensors = 1 ∧
        (SensorDataBuffer.default.enqueue
            sampleCalibFrame).get_latest_by_sensor sampleCalibFrame.target =
          none) ∧
      (SensorDataBuffer.default.enqueue sampleIdentFrame).get_sensor_name
          sampleIdentFrame.target = "LSM303DLHC  ".trim := by
  constructor
  · have h := C9_meta_frame_creates_entry sampleCalibFrame (by decide)
      (by decide)
    exact ⟨h.1, h.2.1⟩
  · have h := (C9_meta_frame_creates_entry sampleIdentFrame (by decide)
      (by decide)).2.2.2
    exact h _ rfl rfl

/-! ## C10: queries on a never-enqueued SensorId return neutral defaults -/

/-- C10: after enqueueing any sequence of frames none of which targets `S`,
every per-sensor query on `S` returns its neutral default:
`get_latest_by_sensor` and `get_average_duration_by_sensor` return `none`,
`get_skipped_by_sensor` returns 0, `get_sensor_name` returns the empty
string, and `convert_values` returns `false` leaving the values unchanged. -/
theorem C10_unknown_sensor_defaults (frames : List Version1DataFrame)
    (S : SensorId) (vals : List ℚ) (h : ∀ f ∈ frames, f.target ≠ S) :
    (SensorDataBuffer.enqueueAll frames).get_latest_by_sensor S = none ∧
      (SensorDataBuffer.enqueueAll frames).get_average_duration_by_sensor S =
        none ∧
      (SensorDataBuffer.enqueueAll frames).get_skipped_by_sensor S = 0 ∧
      (SensorDataBuffer.enqueueAll frames).get_sensor_name S = "" ∧
      (SensorDataBuffer.enqueueAll frames).convert_values S vals =
        (false, vals) := by
  have hl : assocLookup S (SensorDataBuffer.enqueueAll frames).by_sensor =
      none :=
    lookup_foldl_enqueue_none frames S SensorDataBuffer.default
      (by simp [SensorDataBuffer.default, assocLookup]) h
  refine ⟨?_, ?_, ?_, ?_, ?_⟩ <;>
    simp [SensorDataBuffer.get_latest_by_sensor,
      SensorDataBuffer.get_average_duration_by_sensor,
      SensorDataBuffer.get_skipped_by_sensor, SensorDataBuffer.get_sensor_name,
      SensorDataBuffer.convert_values, hl]

/-- C10 (witness): after one gyroscope frame, queries on an unrelated
SensorId all return their neutral defaults. -/
theorem C10_unknown_sensor_defaults_witness :
    (SensorDataBuffer.enqueueAll [sampleGyro 5]).get_latest_by_sensor
        ⟨9, 9, 9⟩ = none ∧
      (SensorDataBuffer.enqueueAll
          [sampleGyro 5]).get_average_duration_by_sensor ⟨9, 9, 9⟩ = none ∧
      (SensorDataBuffer.enqueueAll [sampleGyro 5]).get_skipped_by_sensor
          ⟨9, 9, 9⟩ = 0 ∧
      (SensorDataBuffer.enqueueAll [sampleGyro 5]).get_sensor_name
          ⟨9, 9, 9⟩ = "" ∧
      (SensorDataBuffer.enqueueAll [sampleGyro 5]).convert_values ⟨9, 9, 9⟩
          [4] = (false, [4]) :=
  C10_unknown_sensor_defaults [sampleGyro 5] ⟨9, 9, 9⟩ [4] (by decide)

/-! ## Wire-level lemmas for the decoder -/

theorem mem_frameBody_ne_zero (f : Version1DataFrame) :
    ∀ b ∈ frameBody f, b ≠ 0 := by
  intro b hb
  simp only [frameBody, List.mem_map] at hb
  obtain ⟨a, _, rfl⟩ := hb
  omega

theorem takeWhile_ne_zero_append (l rest : List Nat) (h : ∀ b ∈ l, b ≠ 0) :
    ((l ++ 0 :: rest).takeWhile (· != 0)) = l := by
  induction l with
  | nil => simp
  | cons a t ih =>
    have ha : a ≠ 0 := h a (by simp)
    simp only [List.cons_append, List.takeWhile_cons]
    simp [ha, ih fun b hb => h b (by simp [hb])]

theorem drop_append_succ (l rest : List Nat) (a : Nat) :
    ((l ++ a :: rest).drop (l.length + 1)) = rest := by
  induction l with
  | nil => simp
  | cons x t ih =>
    simp only [List.cons_append, List.length_cons, List.drop_succ_cons]
    exact ih

theorem frameBody_head (f : Version1DataFrame) :
    frameBody f = (f.global_sequence + 1) ::
      (([f.sensor_tag, f.sensor_sequence, f.system_secs, f.system_millis,
          f.system_nanos] ++ sensorDataSer f.value).map (· + 1)) := rfl

theorem dropWhile_zero_zero_encode (f : Version1DataFrame) :
    ((0 :: 0 :: encode f).dropWhile fun x => x == 0) = encode f := by
  rw [encode, frameBody_head f]
  simp [List.dropWhile_cons]

theorem deserialize_encode_prefix (f : Version1DataFrame)
    (h : WellFormedWire f) (rest : List Nat) :
    deserialize (frameBody f ++ 0 :: rest) =
      .ok ((frameBody f).length + 1, f) := by
  have htw := takeWhile_ne_zero_append (frameBody f) rest
    (mem_frameBody_ne_zero f)
  simp only [deserialize, htw]
  rw [if_neg (by simp)]
  rw [h]

/-! ## C2: frames emitted per inbound slice -/

/-- C2 (counterexample): feeding `encode(F1) ∥ 0 ∥ 0 ∥ encode(F2)` as a
single inbound slice does NOT emit `[F1, F2]`: the decoder attempts exactly
one deserialization per slice, so only `F1` is emitted. -/
theorem C2_claim_counterexample :
    (decoderStep deserialize []
        (encode (sampleGyro 5) ++ [0, 0] ++ encode (sampleGyro 6))).2 ≠
      [sampleGyro 5, sampleGyro 6] := by decide

/-- C2 (amended): for any two well-formed frames, feeding
`encode(F1) ∥ 0 ∥ 0 ∥ encode(F2)` as a single inbound slice emits exactly
`[F1]`, leaving `encode(F2)` in the accumulator (the decoder performs one
deserialization attempt per inbound slice, not a loop); `F2` is then emitted
when the next slice — even an empty one — is processed. -/
theorem C2_one_deserialize_per_slice (F1 F2 : Version1DataFrame)
    (h1 : WellFormedWire F1) (h2 : WellFormedWire F2) :
    decoderStep deserialize [] (encode F1 ++ [0, 0] ++ encode F2) =
        (encode F2, [F1]) ∧
      decoderStep deserialize (encode F2) [] = ([], [F2]) := by
  constructor
  · have harr : ([] : List Nat) ++ (encode F1 ++ [0, 0] ++ encode F2) =
        frameBody F1 ++ 0 :: (0 :: 0 :: encode F2) := by
      simp [encode]
    have key := deserialize_encode_prefix F1 h1 (0 :: 0 :: encode F2)
    simp only [decoderStep, harr, key]
    rw [drop_append_succ, dropWhile_zero_zero_encode]
  · have harr : encode F2 ++ ([] : List Nat) = frameBody F2 ++ 0 :: [] := by
      simp [encode]
    have key := deserialize_encode_prefix F2 h2 []
    simp only [decoderStep, harr, key]
    rw [drop_append_succ]
    simp

/-- C2 (witness): the amended behaviour at two concrete well-formed
gyroscope frames. -/
theorem C2_one_deserialize_per_slice_witness :
    decoderStep deserialize []
        (encode (sampleGyro 5) ++ [0, 0] ++ encode (sampleGyro 6)) =
        (encode (sampleGyro 6), [sampleGyro 5]) ∧
      decoderStep deserialize (encode (sampleGyro 6)) [] =
        ([], [sampleGyro 6]) :=
  C2_one_deserialize_per_slice (sampleGyro 5) (sampleGyro 6) (by decide)
    (by decide)

/-! ## C5: decoder error handling -/

/-- C5: whatever the deserializer, when the attempt on the appended
accumulator fails with `Truncated` or `Corrupt`, the accumulator is left
exactly as it was before the attempt and no frame is emitted; when it fails
with the encoding (bincode) error, the accumulator is cleared entirely and no
frame is emitted. -/
theorem C5_decoder_error_handling
    (deser : List Nat → Except DeserializationError (Nat × Version1DataFrame))
    (buffer data : List Nat) :
    ((deser (buffer ++ data) = .error .truncated ∨
        deser (buffer ++ data) = .error .corrupt) →
      decoderStep deser buffer data = (buffer ++ data, [])) ∧
    (deser (buffer ++ data) = .error .bincodeError →
      decoderStep deser buffer data = ([], [])) := by
  constructor
  · rintro (h | h) <;> simp [decoderStep, h]
  · intro h
    simp [decoderStep, h]

/-- C5 (witness): the three error arms at concrete inputs. -/
theorem C5_decoder_error_handling_witness :
    decoderStep (fun _ => .error .truncated) [1, 2] [3] = ([1, 2, 3], []) ∧
      decoderStep (fun _ => .error .corrupt) [1, 2] [3] = ([1, 2, 3], []) ∧
      decoderStep (fun _ => .error .bincodeError) [1, 2] [3] = ([], []) :=
  ⟨(C5_decoder_error_handling _ [1, 2] [3]).1 (Or.inl rfl),
    (C5_decoder_error_handling _ [1, 2] [3]).1 (Or.inr rfl),
    (C5_decoder_error_handling _ [1, 2] [3]).2 rfl⟩

/-! ## C4: serial source error handling -/

/-- C4 (counterexample): a read failing with a non-timeout error kind does
NOT terminate the task — the error is printed to stderr and the loop
continues, contradicting the claim that every non-timeout read error is
fatal. -/
theorem C4_claim_counterexample :
    handle_data_recv_step (.readErr (.other 5)) =
      ⟨false, [], true⟩ := by decide

/-- C4 (amended): a read timeout is silently ignored (no termination, no
logging); a read error of any other kind is printed to stderr and the loop
also continues (not fatal); only a failed write of an outbound command or a
failed forward of read bytes terminates the task with a fatal status. -/
theorem C4_error_handling :
    handle_data_recv_step (.readErr .timedOut) = ⟨false, [], false⟩ ∧
      (∀ c : Nat, handle_data_recv_step (.readErr (.other c)) =
        ⟨false, [], true⟩) ∧
      (handle_data_recv_step (.commandRecv false)).fatal = true ∧
      (∀ (b : Nat) (bs : List Nat),
        (handle_data_recv_step (.readOk (b :: bs) false)).fatal = true) := by
  refine ⟨rfl, fun c => rfl, rfl, fun b bs => ?_⟩
  simp [handle_data_recv_step]

/-! ## C3: the device_time column -/

/-- C3 (counterexample): a frame with `system_secs` at its sentinel but a
valid `system_millis` of 500 yields a `device_time` of 0 in the dumper's
row, not the 0.5 that the claim's independently-elided sum demands. -/
theorem C3_claim_counterexample :
    (create_data_row 0 (SensorId.fromFrame sentinelSecsFrame)
          sentinelSecsFrame none).map (fun r => r.device_time) ≠
      some (claimedDeviceTime sentinelSecsFrame) := by
  simp [create_data_row, decode_device_time, claimedDeviceTime,
    sentinelSecsFrame]
  norm_num

/-- C3 (amended): in every row built by the dumper, the millis and nanos
terms of `device_time` are each independently elided when their own field
holds its u16 sentinel, but a `system_secs` at its u32 sentinel zeroes the
whole `device_time` — it does not merely elide its own term. -/
theorem C3_device_time (now : ℚ) (target : SensorId)
    (data : Version1DataFrame) (ranges : Option LinearRangeInfo) :
    (create_data_row now target data ranges).map (fun r => r.device_time) =
      some (if data.system_secs = 2 ^ 32 - 1 then 0 else
        (data.system_secs : ℚ) +
          (if data.system_millis ≠ 2 ^ 16 - 1 then
            (data.system_millis : ℚ) / 1000 else 0) +
          (if data.system_nanos ≠ 2 ^ 16 - 1 then
            (data.system_nanos : ℚ) / 1000000 else 0)) := by
  by_cases h : data.system_secs = 2 ^ 32 - 1 <;>
    simp [create_data_row, decode_device_time, h]

theorem assocLookup_insert {κ α : Type} [DecidableEq κ] (k S : κ) (v : α)
    (l : List (κ × α)) :
    assocLookup S (assocInsert k v l) =
      if k = S then some v else assocLookup S l := by
  induction l with
  | nil => simp [assocInsert, assocLookup]
  | cons hd tl ih =>
    obtain ⟨k', v'⟩ := hd
    by_cases hk : k' = k
    · subst hk
      by_cases hS : k' = S <;> simp [assocInsert, assocLookup, hS]
    · by_cases hS : k' = S
      · subst hS
        have hks : k ≠ k' := fun h => hk h.symm
        simp [assocInsert, assocLookup, hk, hks]
      · simp [assocInsert, assocLookup, hk, hS, ih]

theorem assocLookup_upsert_self {κ α : Type} [DecidableEq κ] (k : κ)
    (g : α → α) (init : α) (l : List (κ × α)) :
    assocLookup k (assocUpsert k g init l) =
      some (match assocLookup k l with | some v => g v | none => init) := by
  induction l with
  | nil => simp [assocUpsert, assocLookup]
  | cons hd tl ih =>
    obtain ⟨k', v'⟩ := hd
    by_cases hk : k' = k
    · subst hk
      simp [assocUpsert, assocLookup]
    · simp [assocUpsert, assocLookup, hk, ih]

theorem target_of_lri (f : Version1DataFrame) (info : LinearRangeInfo)
    (h : f.value.linearRangesInfo = some info) : f.target = info.target := by
  cases hv : f.value
  all_goals simp [SensorData.linearRangesInfo, hv] at h
  all_goals simp [Version1DataFrame.target, hv, h]

theorem inner_enqueue_sensor_specific (e : InnerSensorDataBuffer)
    (f : Version1DataFrame) :
    (e.enqueue f).sensor_specific = e.sensor_specific := by
  unfold InnerSensorDataBuffer.enqueue
  by_cases hc : (e.sensor_specific && f.is_meta) = true
  · simp only [hc, if_true]
    cases hv : f.value <;> try simp [hv]
    rename_i i
    cases hcode : i.code <;> simp [hv, hcode]
  · simp [hc]

theorem inner_enqueue_calibration (e : InnerSensorDataBuffer)
    (f : Version1DataFrame) (hs : e.sensor_specific = true) :
    (e.enqueue f).calibration =
      match f.value.linearRangesInfo with
      | some info => some info
      | none => e.calibration := by
  unfold InnerSensorDataBuffer.enqueue
  cases hv : f.value <;>
    try simp [Version1DataFrame.is_meta, SensorData.linearRangesInfo, hv, hs]
  rename_i i
  cases hcode : i.code <;>
    simp [Version1DataFrame.is_meta, SensorData.linearRangesInfo, hv, hs,
      hcode]

theorem enqueue_preserves_specific (buf : SensorDataBuffer)
    (f : Version1DataFrame)
    (h : ∀ T e, assocLookup T buf.by_sensor = some e →
      e.sensor_specific = true) :
    ∀ T e, assocLookup T (buf.enqueue f).by_sensor = some e →
      e.sensor_specific = true := by
  intro T e
  unfold SensorDataBuffer.enqueue
  by_cases h0 : f.target.tag = 0
  · simp only [h0, if_true]
    exact h T e
  · simp only [h0, if_false]
    by_cases hk : f.target = T
    · subst hk
      rw [assocLookup_upsert_self]
      intro he
      injection he with he
      subst he
      cases hl : assocLookup f.target buf.by_sensor with
      | none =>
        simp only [hl]
        rw [inner_enqueue_sensor_specific]
        rfl
      | some v =>
        simp only [hl]
        rw [inner_enqueue_sensor_specific]
        exact h _ v hl
    · rw [assocLookup_upsert_ne _ _ hk]
      exact h T e

theorem enqueue_calib_step (buf : SensorDataBuffer) (f : Version1DataFrame)
    (S : SensorId) (hS : S.tag ≠ 0)
    (hinv : ∀ T e, assocLookup T buf.by_sensor = some e →
      e.sensor_specific = true) :
    ((assocLookup S (buf.enqueue f).by_sensor).bind fun e => e.calibration) =
      match f.value.linearRangesInfo with
      | some info =>
        if info.target = S then some info
        else ((assocLookup S buf.by_sensor).bind fun e => e.calibration)
      | none => ((assocLookup S buf.by_sensor).bind fun e => e.calibration) := by
  unfold SensorDataBuffer.enqueue
  by_cases h0 : f.target.tag = 0
  · simp only [h0, if_true]
    cases hio : f.value.linearRangesInfo with
    | none => rfl
    | some info =>
      have hne : info.target ≠ S := by
        intro hEq
        apply hS
        rw [← hEq, ← target_of_lri f info hio]
        exact h0
      simp [hne]
  · simp only [h0, if_false]
    by_cases hk : f.target = S
    · rw [← hk, assocLookup_upsert_self]
      cases hl : assocLookup f.target buf.by_sensor with
      | none =>
        simp only [hl, Option.some_bind]
        rw [inner_enqueue_calibration _ _ rfl]
        cases hio : f.value.linearRangesInfo with
        | none => rfl
        | some info => simp [target_of_lri f info hio]
      | some v =>
        simp only [hl, Option.some_bind]
        rw [inner_enqueue_calibration _ _ (hinv _ v hl)]
        cases hio : f.value.linearRangesInfo with
        | none => rfl
        | some info => simp [target_of_lri f info hio]
    · rw [assocLookup_upsert_ne _ _ hk]
      cases hio : f.value.linearRangesInfo with
      | none => rfl
      | some info =>
        have hne : info.target ≠ S := by
          rw [← target_of_lri f info hio]
          exact hk
        simp [hne]

theorem lastCalibFrom_cons (acc : Option LinearRangeInfo)
    (f : Version1DataFrame) (tl : List Version1DataFrame) (S : SensorId) :
    lastCalibFrom acc (f :: tl) S =
      lastCalibFrom
        (match f.value.linearRangesInfo with
         | some info => if info.target = S then some info else acc
         | none => acc) tl S := by
  cases hv : f.value <;> simp [lastCalibFrom, SensorData.linearRangesInfo, hv]

theorem activeCalib_foldl (frames : List Version1DataFrame) :
    ∀ (buf : SensorDataBuffer) (S : SensorId), S.tag ≠ 0 →
      (∀ T e, assocLookup T buf.by_sensor = some e →
        e.sensor_specific = true) →
      ((assocLookup S
          ((frames.foldl (fun b fr => b.enqueue fr) buf)).by_sensor).bind
        fun e => e.calibration) =
        lastCalibFrom
          ((assocLookup S buf.by_sensor).bind fun e => e.calibration)
          frames S := by
  induction frames with
  | nil =>
    intro buf S _ _
    simp [lastCalibFrom]
  | cons f tl ih =>
    intro buf S hS hinv
    simp only [List.foldl_cons]
    rw [ih (buf.enqueue f) S hS (enqueue_preserves_specific buf f hinv),
      lastCalibFrom_cons]
    congr 1
    exact enqueue_calib_step buf f S hS hinv

theorem dump_step_ranges (st : DumpState) (now : ℚ)
    (f : Version1DataFrame) :
    (dump_step st now f).ranges =
      match f.value.linearRangesInfo with
      | some info => assocInsert f.target info st.ranges
      | none => st.ranges := by
  cases hv : f.value <;>
    cases hl : assocLookup (SensorId.fromFrame f) st.files <;>
      simp [dump_step, create_data_row, create_header_row,
        SensorData.linearRangesInfo, hv, hl]

theorem dump_ranges_foldl (frames : List Version1DataFrame) :
    ∀ (st : DumpState) (S : SensorId),
      assocLookup S ((frames.foldl (fun t f => dump_step t 0 f) st)).ranges =
        lastCalibFrom (assocLookup S st.ranges) frames S := by
  induction frames with
  | nil =>
    intro st S
    simp [lastCalibFrom]
  | cons f tl ih =>
    intro st S
    simp only [List.foldl_cons]
    rw [ih, lastCalibFrom_cons]
    congr 1
    rw [dump_step_ranges]
    cases hio : f.value.linearRangesInfo with
    | none => rfl
    | some info =>
      rw [assocLookup_insert, target_of_lri f info hio]

/-- C7 (counterexample): for the board SensorId (tag 0), two LinearRanges
frames leave C4 with NO active calibration at all — the per-sensor map skips
tag-0 targets, so convert_values ignores the most recently observed record —
even though that record exists. -/
theorem C7_claim_counterexample :
    activeCalibC4 [boardCalibFrame1, boardCalibFrame2] ⟨0, 1, 1⟩ = none ∧
      lastCalib [boardCalibFrame1, boardCalibFrame2] ⟨0, 1, 1⟩ =
        some boardCalib2 ∧
      (SensorDataBuffer.enqueueAll
          [boardCalibFrame1, boardCalibFrame2]).convert_values ⟨0, 1, 1⟩ [1] =
        (false, [1]) := by
  refine ⟨by decide, by decide, ?_⟩
  have h : ((assocLookup ⟨0, 1, 1⟩
      (SensorDataBuffer.enqueueAll
        [boardCalibFrame1, boardCalibFrame2]).by_sensor).bind
      fun e => e.calibration) = none := by decide
  exact (C6_convert_values _ _ _).2 h

/-- C7 (amended): after processing any sequence of frames, the calibration
C5 holds for a SensorId is exactly the most recently observed LinearRanges
record for it (last-write-wins), and so is the calibration C4 holds and uses
in convert_values — for every SensorId with a non-zero tag (tag-0 ids never
enter C4's per-sensor map). -/
theorem C7_last_write_wins (frames : List Version1DataFrame) (S : SensorId) :
    (S.tag ≠ 0 → activeCalibC4 frames S = lastCalib frames S) ∧
      activeCalibC5 frames S = lastCalib frames S := by
  constructor
  · intro hS
    unfold activeCalibC4 SensorDataBuffer.enqueueAll lastCalib
    rw [activeCalib_foldl frames SensorDataBuffer.default S hS
      (by intro T e h; simp [SensorDataBuffer.default, assocLookup] at h)]
    simp [SensorDataBuffer.default, assocLookup]
  · unfold activeCalibC5 dumpAll lastCalib
    rw [dump_ranges_foldl]
    simp [DumpState.init, assocLookup]

/-- C7 (witness): two successive sample calibrations for the tag-1 gyroscope
channel; both layers report the later one. -/
theorem C7_last_write_wins_witness :
    activeCalibC4 [sampleCalibFrame, sampleCalibFrame2] sampleGyroId =
        lastCalib [sampleCalibFrame, sampleCalibFrame2] sampleGyroId ∧
      activeCalibC5 [sampleCalibFrame, sampleCalibFrame2] sampleGyroId =
        lastCalib [sampleCalibFrame, sampleCalibFrame2] sampleGyroId :=
  ⟨(C7_last_write_wins [sampleCalibFrame, sampleCalibFrame2]
      sampleGyroId).1 (by decide),
    (C7_last_write_wins [sampleCalibFrame, sampleCalibFrame2]
      sampleGyroId).2⟩

theorem enqueueAll_lookup_tag0 (frames : List Version1DataFrame) :
    ∀ (buf : SensorDataBuffer) (S : SensorId), S.tag = 0 →
      assocLookup S buf.by_sensor = none →
      assocLookup S
        (frames.foldl (fun b f => b.enqueue f) buf).by_sensor = none := by
  induction frames with
  | nil =>
    intro buf S _ hb
    simpa using hb
  | cons f tl ih =>
    intro buf S hS hb
    simp only [List.foldl_cons]
    refine ih _ S hS ?_
    by_cases h0 : f.target.tag = 0
    · unfold SensorDataBuffer.enqueue
      simp only [h0, if_true]
      exact hb
    · rw [lookup_enqueue_ne buf f S (by intro hEq; rw [hEq] at h0; exact h0 hS)]
      exact hb

theorem dump_step_rowcount (st : DumpState) (now : ℚ)
    (f : Version1DataFrame) :
    dumpRowCount (dump_step st now f) (SensorId.fromFrame f) =
      dumpRowCount st (SensorId.fromFrame f) + 1 := by
  unfold dumpRowCount dump_step
  cases hl : assocLookup (SensorId.fromFrame f) st.files with
  | none =>
    simp [create_data_row, create_header_row, hl, assocLookup_insert]
  | some rows =>
    simp [create_data_row, hl, assocLookup_insert]

/-- C8 (counterexample): a frame whose `sensor_tag` is 0 CAN create a
per-sensor entry: the dispatch tests the tag of the frame's target id, and a
board-originated LinearRanges meta frame (sensor_tag 0) whose payload targets
the tag-1 gyroscope creates that sensor's entry. -/
theorem C8_claim_counterexample :
    sampleCalibFrame.sensor_tag = 0 ∧
      (SensorDataBuffer.default.enqueue sampleCalibFrame).num_sensors = 1 :=
  ⟨rfl, by decide⟩

/-- C8 (amended): the per-sensor skip is keyed on the frame's TARGET id:
frames whose target id has tag 0 never create or modify an entry, and no key
of tag 0 ever appears in the per-sensor map (so num_sensors and get_sensors
never reflect tag 0); board-tagged meta frames whose payload targets a
non-zero sensor do update that sensor's entry; the CSV dumper processes
sensor_tag-0 frames like any other frame and writes their row. -/
theorem C8_tag0_dispatch :
    (∀ (buf : SensorDataBuffer) (f : Version1DataFrame),
        f.target.tag = 0 → (buf.enqueue f).by_sensor = buf.by_sensor) ∧
      (∀ (frames : List Version1DataFrame) (S : SensorId), S.tag = 0 →
        assocLookup S (SensorDataBuffer.enqueueAll frames).by_sensor =
          none) ∧
      (∀ (st : DumpState) (now : ℚ) (f : Version1DataFrame),
        f.sensor_tag = 0 →
        dumpRowCount (dump_step st now f) (SensorId.fromFrame f) =
          dumpRowCount st (SensorId.fromFrame f) + 1) := by
  refine ⟨?_, ?_, ?_⟩
  · intro buf f h0
    unfold SensorDataBuffer.enqueue
    simp [h0]
  · intro frames S hS
    exact enqueueAll_lookup_tag0 frames SensorDataBuffer.default S hS
      (by simp [SensorDataBuffer.default, assocLookup])
  · intro st now f _
    exact dump_step_rowcount st now f

/-- C8 (witness): the amended statement at concrete inputs: a LinearRanges
frame targeting tag 0 leaves the map unchanged, the board id is absent after
a gyro frame, and the dumper writes a row for the sensor_tag-0 calibration
frame. -/
theorem C8_tag0_dispatch_witness :
    (SensorDataBuffer.default.enqueue boardCalibFrame1).by_sensor =
        SensorDataBuffer.default.by_sensor ∧
      assocLookup ⟨0, 1, 1⟩
          (SensorDataBuffer.enqueueAll [sampleGyro 5]).by_sensor = none ∧
      dumpRowCount (dump_step DumpState.init 0 sampleCalibFrame)
          (SensorId.fromFrame sampleCalibFrame) =
        dumpRowCount DumpState.init (SensorId.fromFrame sampleCalibFrame) +
          1 :=
  ⟨C8_tag0_dispatch.1 SensorDataBuffer.default boardCalibFrame1 (by decide),
    C8_tag0_dispatch.2.1 [sampleGyro 5] ⟨0, 1, 1⟩ rfl,
    C8_tag0_dispatch.2.2 DumpState.init 0 sampleCalibFrame rfl⟩
